import Mathlib

/-!
Verification of the express-jobly core: the identity/authorization layer and
the dynamic query-fragment builders (partial-update fragments and per-entity
WHERE-clause filter builders).

The filter builders and the pure prefix of `Company.findAll` are embedded from
the model sources (`models/company.js`, `models/job.js`).  The partial-update
helper and the auth middleware are present in the repository only through
their tests and callers; those are modelled from the specification, as marked
on each definition.
-/

/-- A JavaScript value as it appears in a SQL parameter list or an update
payload: a string, a number, or a boolean. -/
inductive JSVal where
  | str (s : String)
  | num (n : Int)
  | bool (b : Bool)
deriving DecidableEq, Repr

/-- JavaScript truthiness of an optional string field: `undefined` and the
empty string are falsy. -/
def truthyStr : Option String → Bool
  | none => false
  | some s => s != ""

/-- JavaScript truthiness of an optional numeric field: `undefined` and `0`
are falsy. -/
def truthyNum : Option Int → Bool
  | none => false
  | some n => n != 0

/-- JavaScript truthiness of an optional boolean field: `undefined` and
`false` are falsy. -/
def truthyBool : Option Bool → Bool
  | none => false
  | some b => b

/-- The JavaScript comparison `+a > +b` on optional numbers: a missing
operand coerces to NaN, and every comparison against NaN is false. -/
def plusGT : Option Int → Option Int → Bool
  | some a, some b => decide (b < a)
  | _, _ => false

/-- Typed failures surfaced to the route layer (`expressError.js`):
`Unauthorized` maps to 401, `BadRequest` to 400. -/
inductive ErrKind where
  | unauthorized
  | badRequest
deriving DecidableEq, Repr

/-- The `{ where, queries }` pair returned by the entity filter builders. -/
structure FilterResult where
  whereClause : String
  queries : List JSVal
deriving DecidableEq, Repr

namespace Company

/-- The two parallel arrays `whereStatement` and `queries` built by
`Company._filterCompany` (models/company.js): each truthy criterion pushes
its parameter and then a fragment whose placeholder index is the new length
of `queries`. -/
def filterCompanyParts (name : Option String) (minEmployees maxEmployees : Option Int) :
    List String × List JSVal :=
  let ws0 : List String := []
  let qs0 : List JSVal := []
  let (ws1, qs1) :=
    if truthyStr name then
      let qs := qs0 ++ [JSVal.str ("%" ++ name.getD "" ++ "%")]
      (ws0 ++ ["name ILIKE $" ++ toString qs.length], qs)
    else (ws0, qs0)
  let (ws2, qs2) :=
    if truthyNum minEmployees then
      let qs := qs1 ++ [JSVal.num (minEmployees.getD 0)]
      (ws1 ++ ["num_employees >= $" ++ toString qs.length], qs)
    else (ws1, qs1)
  let (ws3, qs3) :=
    if truthyNum maxEmployees then
      let qs := qs2 ++ [JSVal.num (maxEmployees.getD 0)]
      (ws2 ++ ["num_employees <= $" ++ toString qs.length], qs)
    else (ws2, qs2)
  (ws3, qs3)

/-- `Company._filterCompany` (models/company.js): assembles the final
`where` string from the fragments — empty when there are none, otherwise
`"WHERE "` followed by the fragments joined with `" AND "`. -/
def _filterCompany (name : Option String) (minEmployees maxEmployees : Option Int) :
    FilterResult :=
  let (ws, qs) := filterCompanyParts name minEmployees maxEmployees
  { whereClause := if ws.length > 0 then "WHERE " ++ String.intercalate " AND " ws else ""
    queries := qs }

/-- The pure prefix of `Company.findAll` (models/company.js): the inverted
employee-range validation `if (maxEmployees && +minEmployees > +maxEmployees)`
followed by the call to the filter builder.  The subsequent `db.query` is
I/O and outside the embedding. -/
def findAll (name : Option String) (minEmployees maxEmployees : Option Int) :
    Except ErrKind FilterResult :=
  if truthyNum maxEmployees && plusGT minEmployees maxEmployees then
    Except.error ErrKind.badRequest
  else
    Except.ok (_filterCompany name minEmployees maxEmployees)

end Company

namespace Job

/-- The two parallel arrays `whereStatement` and `queries` built by
`Job._filterJob` (models/job.js): truthy `title` and `minSalary` each push a
parameter and a placeholder fragment; truthy `hasEquity` pushes the literal
fragment `equity > 0` and no parameter. -/
def filterJobParts (title : Option String) (minSalary : Option Int)
    (hasEquity : Option Bool) : List String × List JSVal :=
  let ws0 : List String := []
  let qs0 : List JSVal := []
  let (ws1, qs1) :=
    if truthyStr title then
      let qs := qs0 ++ [JSVal.str ("%" ++ title.getD "" ++ "%")]
      (ws0 ++ ["title ILIKE $" ++ toString qs.length], qs)
    else (ws0, qs0)
  let (ws2, qs2) :=
    if truthyNum minSalary then
      let qs := qs1 ++ [JSVal.num (minSalary.getD 0)]
      (ws1 ++ ["salary >= $" ++ toString qs.length], qs)
    else (ws1, qs1)
  let (ws3, qs3) :=
    if truthyBool hasEquity then
      (ws2 ++ ["equity > 0"], qs2)
    else (ws2, qs2)
  (ws3, qs3)

/-- `Job._filterJob` (models/job.js): assembles the final `where` string
from the fragments — empty when there are none, otherwise `"WHERE "`
followed by the fragments joined with `" AND "`. -/
def _filterJob (title : Option String) (minSalary : Option Int)
    (hasEquity : Option Bool) : FilterResult :=
  let (ws, qs) := filterJobParts title minSalary hasEquity
  { whereClause := if ws.length > 0 then "WHERE " ++ String.intercalate " AND " ws else ""
    queries := qs }

end Job

/-- The `{ setCols, values }` pair returned by the partial-update fragment
builder. -/
structure UpdateResult where
  setCols : String
  values : List JSVal
deriving DecidableEq, Repr

/-- Modelled from the spec: the implementation file `helpers/sql.js` is
absent from the sources (only its tests are present).  The assignment
fragments of the partial-update builder: the payload's fields in insertion
order, each rendered as `"<column>"=$<k>` with the column resolved through
`columnMap` (falling back to the field name verbatim) and `k` the 1-based
position of the field. -/
def updCols (data : List (String × JSVal)) (columnMap : List (String × String)) :
    List String :=
  data.mapIdx fun idx p =>
    "\"" ++ ((columnMap.lookup p.1).getD p.1) ++ "\"=$" ++ toString (idx + 1)

/-- Modelled from the spec: the implementation file `helpers/sql.js` is
absent from the sources (only its tests are present).  `sqlForPartialUpdate`
fails with the "No data" validation error on an empty payload (the message
pinned by `helpers/sql.test.js`) and otherwise joins the assignment
fragments with `", "`, the parameter sequence being the payload's values in
the same order. -/
def sqlForPartialUpdate (data : List (String × JSVal))
    (columnMap : List (String × String)) : Except String UpdateResult :=
  if data.isEmpty then Except.error "No data"
  else
    Except.ok { setCols := String.intercalate ", " (updCols data columnMap)
                values := data.map Prod.snd }

/-- The decoded payload of a verified credential: `{ username, isAdmin }`
plus the issue timestamp `iat`. -/
structure Identity where
  username : String
  isAdmin : Bool
  iat : Nat
deriving DecidableEq, Repr

/-- The outcome of an access gate: pass the request on, or fail it with a
typed error. -/
inductive Decision where
  | allow
  | deny (err : ErrKind)
deriving DecidableEq, Repr

/-- Modelled from the spec: the implementation file `middleware/auth.js` is
absent from the sources (only its tests are present).  `ensureAdmin` allows
iff the identity context is populated and `isAdmin === true`; every other
case denies with `Unauthorized`. -/
def ensureAdmin : Option Identity → Decision
  | some u => if u.isAdmin then Decision.allow else Decision.deny ErrKind.unauthorized
  | none => Decision.deny ErrKind.unauthorized

/-- Modelled from the spec: the implementation file `middleware/auth.js` is
absent from the sources (only its tests are present).
`ensureAdminOrCorrectUser` checks identity presence first, then allows iff
`isAdmin === true` or the identity's username equals the route's `username`
parameter; every other case denies with `Unauthorized`. -/
def ensureAdminOrCorrectUser (ctx : Option Identity) (routeUsername : String) :
    Decision :=
  match ctx with
  | none => Decision.deny ErrKind.unauthorized
  | some u =>
    if u.isAdmin || u.username == routeUsername then Decision.allow
    else Decision.deny ErrKind.unauthorized

/-- A bearer credential as the verifier sees it: a decoded payload together
with the secret it was signed with and its failure-mode flags (expiry,
payload well-formedness). -/
structure Token where
  payload : Identity
  signedWith : String
  expired : Bool
  wellFormed : Bool
deriving DecidableEq, Repr

/-- The shape of the inbound authorization header: absent, present but not
of the `Bearer <token>` shape, or carrying a bearer token. -/
inductive AuthHeader where
  | missing
  | notBearer (raw : String)
  | bearer (tok : Token)

/-- Modelled from the spec: the implementation file `middleware/auth.js` is
absent from the sources (only its tests are present).  Verification of a
token against the shared secret: signature mismatch, expiry, and a
malformed payload each fail; otherwise the decoded payload is returned. -/
def verifyJWT (secret : String) (tok : Token) : Except String Identity :=
  if tok.signedWith != secret then Except.error "invalid signature"
  else if tok.expired then Except.error "jwt expired"
  else if !tok.wellFormed then Except.error "malformed payload"
  else Except.ok tok.payload

/-- Modelled from the spec: the implementation file `middleware/auth.js` is
absent from the sources (only its tests are present).  `authenticateJWT`
never fails: a missing or non-`Bearer` header leaves the identity context
empty, a token that fails verification is swallowed and likewise leaves it
empty, and a verified token populates the context with the decoded
payload. -/
def authenticateJWT (secret : String) (h : AuthHeader) :
    Except String (Option Identity) :=
  match h with
  | AuthHeader.missing => Except.ok none
  | AuthHeader.notBearer _ => Except.ok none
  | AuthHeader.bearer tok =>
    match verifyJWT secret tok with
    | Except.ok u => Except.ok (some u)
    | Except.error _ => Except.ok none

/-- Accumulating scanner for positional placeholder tokens: walking the
character list, a `$` starts a number and subsequent digits extend it; the
list of completed numbers is returned in order of appearance. -/
def phAux : List Char → Option Nat → List Nat
  | [], some n => [n]
  | [], none => []
  | c :: rest, some n =>
    if c.isDigit then phAux rest (some (10 * n + (c.toNat - 48)))
    else if c = '$' then n :: phAux rest (some 0)
    else n :: phAux rest none
  | c :: rest, none =>
    if c = '$' then phAux rest (some 0)
    else phAux rest none

/-- The sequence of placeholder indices `$k` appearing in a SQL string, in
order of appearance. -/
def placeholders (s : String) : List Nat :=
  phAux s.data none

/-- C10: a criterion that is present but falsy — a zero numeric bound or an
empty string — emits no condition fragment and no parameter, so the result
is identical to the same filter with the criterion omitted; in particular a
zero employee-count bound is never translated into a comparison. -/
theorem falsy_criteria_ignored (name title : Option String)
    (minEmployees maxEmployees minSalary : Option Int) (hasEquity : Option Bool) :
    Company._filterCompany (some "") minEmployees maxEmployees
        = Company._filterCompany none minEmployees maxEmployees
      ∧ Company._filterCompany name (some 0) maxEmployees
        = Company._filterCompany name none maxEmployees
      ∧ Company._filterCompany name minEmployees (some 0)
        = Company._filterCompany name minEmployees none
      ∧ Job._filterJob (some "") minSalary hasEquity
        = Job._filterJob none minSalary hasEquity
      ∧ Job._filterJob title (some 0) hasEquity
        = Job._filterJob title none hasEquity :=
  ⟨rfl, rfl, rfl, rfl, rfl⟩

/-- C7: `ensureAdmin` allows exactly when an identity is present with
`isAdmin = true`; every other case — anonymous, or present but non-admin —
denies, and always with the same `Unauthorized` error kind. -/
theorem ensureAdmin_spec (ctx : Option Identity) :
    (ensureAdmin ctx = Decision.allow ↔ ∃ u, ctx = some u ∧ u.isAdmin = true)
      ∧ (ensureAdmin ctx = Decision.allow
        ∨ ensureAdmin ctx = Decision.deny ErrKind.unauthorized) := by
  rcases ctx with _ | u
  · simp [ensureAdmin]
  · cases hA : u.isAdmin <;> simp [ensureAdmin, hA]

/-- Witness for C7: an admin identity is allowed through `ensureAdmin`. -/
theorem ensureAdmin_spec_witness :
    ensureAdmin (some { username := "u1", isAdmin := true, iat := 0 }) = Decision.allow :=
  (ensureAdmin_spec (some { username := "u1", isAdmin := true, iat := 0 })).1.mpr
    ⟨{ username := "u1", isAdmin := true, iat := 0 }, rfl, rfl⟩

/-- C8: `ensureAdminOrCorrectUser` allows exactly when an identity is
present and is an admin or matches the route's `username` parameter; every
other case denies with `Unauthorized`.  The four scenario rows of the claim
are included for `username = "u1"`. -/
theorem ensureAdminOrCorrectUser_spec (ctx : Option Identity) (routeUsername : String) :
    (ensureAdminOrCorrectUser ctx routeUsername = Decision.allow
        ↔ ∃ u, ctx = some u ∧ (u.isAdmin = true ∨ u.username = routeUsername))
      ∧ (ensureAdminOrCorrectUser ctx routeUsername = Decision.allow
        ∨ ensureAdminOrCorrectUser ctx routeUsername = Decision.deny ErrKind.unauthorized)
      ∧ ensureAdminOrCorrectUser (some { username := "u1", isAdmin := false, iat := 0 }) "u1"
        = Decision.allow
      ∧ ensureAdminOrCorrectUser (some { username := "u2", isAdmin := false, iat := 0 }) "u1"
        = Decision.deny ErrKind.unauthorized
      ∧ ensureAdminOrCorrectUser (some { username := "u2", isAdmin := true, iat := 0 }) "u1"
        = Decision.allow
      ∧ ensureAdminOrCorrectUser none "u1" = Decision.deny ErrKind.unauthorized := by
  refine ⟨?_, ?_, by decide, by decide, by decide, by decide⟩
  · rcases ctx with _ | u
    · simp [ensureAdminOrCorrectUser]
    · cases hA : u.isAdmin
      · by_cases hU : u.username = routeUsername <;>
          simp [ensureAdminOrCorrectUser, hA, hU]
      · simp [ensureAdminOrCorrectUser, hA]
  · rcases ctx with _ | u
    · simp [ensureAdminOrCorrectUser]
    · by_cases h : (u.isAdmin || u.username == routeUsername) = true
      · exact Or.inl (by simp [ensureAdminOrCorrectUser, h])
      · exact Or.inr (by simp [ensureAdminOrCorrectUser, h])

/-- Witness for C8: a non-admin identity matching the route's username is
allowed through `ensureAdminOrCorrectUser`. -/
theorem ensureAdminOrCorrectUser_spec_witness :
    ensureAdminOrCorrectUser (some { username := "me", isAdmin := false, iat := 3 }) "me"
      = Decision.allow :=
  (ensureAdminOrCorrectUser_spec (some { username := "me", isAdmin := false, iat := 3 }) "me").1.mpr
    ⟨{ username := "me", isAdmin := false, iat := 3 }, rfl, Or.inr rfl⟩

/-- C9: `authenticateJWT` never fails — for every header it returns an
identity context — and the context is populated with the decoded payload
exactly when the header carries a bearer token that verifies against the
secret; every other case (missing header, malformed header, failed
verification) leaves the context empty. -/
theorem authenticateJWT_spec (secret : String) (h : AuthHeader) :
    (∃ ctx, authenticateJWT secret h = Except.ok ctx)
      ∧ (∀ u, authenticateJWT secret h = Except.ok (some u)
          ↔ ∃ tok, h = AuthHeader.bearer tok ∧ verifyJWT secret tok = Except.ok u) := by
  rcases h with _ | raw | tok
  · exact ⟨⟨none, rfl⟩, by simp [authenticateJWT]⟩
  · exact ⟨⟨none, rfl⟩, by simp [authenticateJWT]⟩
  · rcases hv : verifyJWT secret tok with e | u
    · refine ⟨⟨none, by simp [authenticateJWT, hv]⟩, ?_⟩
      intro u
      simp [authenticateJWT, hv]
    · refine ⟨⟨some u, by simp [authenticateJWT, hv]⟩, ?_⟩
      intro u'
      simp [authenticateJWT, hv]

/-- Witness for C9: a well-formed unexpired token signed with the right
secret populates the context with its payload. -/
theorem authenticateJWT_spec_witness :
    authenticateJWT "secret"
        (AuthHeader.bearer
          { payload := { username := "test", isAdmin := false, iat := 1 }
            signedWith := "secret", expired := false, wellFormed := true })
      = Except.ok (some { username := "test", isAdmin := false, iat := 1 }) :=
  ((authenticateJWT_spec "secret"
      (AuthHeader.bearer
        { payload := { username := "test", isAdmin := false, iat := 1 }
          signedWith := "secret", expired := false, wellFormed := true })).2
    { username := "test", isAdmin := false, iat := 1 }).mpr
    ⟨{ payload := { username := "test", isAdmin := false, iat := 1 }
       signedWith := "secret", expired := false, wellFormed := true }, rfl, rfl⟩

/-- C5: an empty update payload fails with the "No data" validation error
whatever the column map holds, and a successful build always carries one
fragment per payload field — never an empty assignment list. -/
theorem sqlForPartialUpdate_empty (columnMap : List (String × String)) :
    sqlForPartialUpdate [] columnMap = Except.error "No data"
      ∧ ∀ (data : List (String × JSVal)) (r : UpdateResult),
          sqlForPartialUpdate data columnMap = Except.ok r →
            data ≠ [] ∧ (updCols data columnMap).length = data.length := by
  refine ⟨rfl, ?_⟩
  intro data r hok
  rcases data with _ | ⟨p, rest⟩
  · simp [sqlForPartialUpdate] at hok
  · exact ⟨by simp, by simp [updCols, List.length_mapIdx]⟩

/-- Witness for C5: the error on the empty payload together with the
fragment count on a one-field payload. -/
theorem sqlForPartialUpdate_empty_witness :
    sqlForPartialUpdate [] [] = Except.error "No data"
      ∧ ([("a", JSVal.num 1)] : List (String × JSVal)) ≠ []
      ∧ (updCols [("a", JSVal.num 1)] []).length = [("a", JSVal.num 1)].length :=
  ⟨(sqlForPartialUpdate_empty []).1,
    (sqlForPartialUpdate_empty []).2 [("a", JSVal.num 1)]
      { setCols := "\"a\"=$1", values := [JSVal.num 1] } rfl⟩

/-- C1: for every filter input, both WHERE-clause builders keep placeholders
and parameters in lockstep — the placeholder indices appearing in `where`,
in order, are exactly `1, 2, ..., queries.length`, so the k-th placeholder
is `$k`, the largest index equals the parameter count, and no index is
skipped or repeated. -/
theorem filter_placeholders_lockstep (name title : Option String)
    (minEmployees maxEmployees minSalary : Option Int) (hasEquity : Option Bool) :
    placeholders (Company._filterCompany name minEmployees maxEmployees).whereClause
        = List.range' 1 (Company._filterCompany name minEmployees maxEmployees).queries.length
      ∧ placeholders (Job._filterJob title minSalary hasEquity).whereClause
        = List.range' 1 (Job._filterJob title minSalary hasEquity).queries.length
      ∧ Company._filterCompany (some "job2") (some 10) none
        = { whereClause := "WHERE name ILIKE $1 AND num_employees >= $2"
            queries := [JSVal.str "%job2%", JSVal.num 10] } := by
  refine ⟨?_, ?_, by decide⟩
  · cases hn : truthyStr name <;> cases h1 : truthyNum minEmployees <;>
      cases h2 : truthyNum maxEmployees <;>
      simp [Company._filterCompany, Company.filterCompanyParts, hn, h1, h2] <;> decide
  · cases ht : truthyStr title <;> cases h1 : truthyNum minSalary <;>
      cases h2 : truthyBool hasEquity <;>
      simp [Job._filterJob, Job.filterJobParts, ht, h1, h2] <;> decide

/-- C2: `hasEquity = true` appends the literal condition `equity > 0` to the
Job filter without consuming a parameter — the queries are those of the same
filter without `hasEquity`, and the `where` string is that filter's string
extended by the literal condition; `hasEquity = false` or absent emits
nothing, giving exactly the result without `hasEquity`.  The claim's example
`{minSalary: 5, hasEquity: true}` is included. -/
theorem filterJob_hasEquity (title : Option String) (minSalary : Option Int) :
    (Job._filterJob title minSalary (some true)).queries
        = (Job._filterJob title minSalary none).queries
      ∧ (Job._filterJob title minSalary (some true)).whereClause
        = (if (Job._filterJob title minSalary none).whereClause = ""
            then "WHERE equity > 0"
            else (Job._filterJob title minSalary none).whereClause ++ " AND equity > 0")
      ∧ Job._filterJob title minSalary (some false) = Job._filterJob title minSalary none
      ∧ Job._filterJob none (some 5) (some true)
        = { whereClause := "WHERE salary >= $1 AND equity > 0"
            queries := [JSVal.num 5] } := by
  refine ⟨?_, ?_, rfl, by decide⟩
  · cases ht : truthyStr title <;> cases h1 : truthyNum minSalary <;>
      simp [Job._filterJob, Job.filterJobParts, ht, h1, truthyBool]
  · cases ht : truthyStr title <;> cases h1 : truthyNum minSalary <;>
      simp [Job._filterJob, Job.filterJobParts, ht, h1, truthyBool] <;> decide

/-- C3: when a builder produces no condition fragment its result is exactly
`{where: "", queries: []}` — no `WHERE` keyword — and when it produces at
least one fragment, `where` is `"WHERE "` followed by the fragments joined
with `" AND "`. -/
theorem filter_where_assembly (name title : Option String)
    (minEmployees maxEmployees minSalary : Option Int) (hasEquity : Option Bool) :
    ((Company.filterCompanyParts name minEmployees maxEmployees).1 = [] →
        Company._filterCompany name minEmployees maxEmployees
          = { whereClause := "", queries := [] })
      ∧ ((Company.filterCompanyParts name minEmployees maxEmployees).1 ≠ [] →
        (Company._filterCompany name minEmployees maxEmployees).whereClause
          = "WHERE " ++ String.intercalate " AND "
              (Company.filterCompanyParts name minEmployees maxEmployees).1)
      ∧ ((Job.filterJobParts title minSalary hasEquity).1 = [] →
        Job._filterJob title minSalary hasEquity
          = { whereClause := "", queries := [] })
      ∧ ((Job.filterJobParts title minSalary hasEquity).1 ≠ [] →
        (Job._filterJob title minSalary hasEquity).whereClause
          = "WHERE " ++ String.intercalate " AND "
              (Job.filterJobParts title minSalary hasEquity).1) := by
  refine ⟨?_, ?_, ?_, ?_⟩
  · cases hn : truthyStr name <;> cases h1 : truthyNum minEmployees <;>
      cases h2 : truthyNum maxEmployees <;>
      simp [Company._filterCompany, Company.filterCompanyParts, hn, h1, h2]
  · cases hn : truthyStr name <;> cases h1 : truthyNum minEmployees <;>
      cases h2 : truthyNum maxEmployees <;>
      simp [Company._filterCompany, Company.filterCompanyParts, hn, h1, h2]
  · cases ht : truthyStr title <;> cases h1 : truthyNum minSalary <;>
      cases h2 : truthyBool hasEquity <;>
      simp [Job._filterJob, Job.filterJobParts, ht, h1, h2]
  · cases ht : truthyStr title <;> cases h1 : truthyNum minSalary <;>
      cases h2 : truthyBool hasEquity <;>
      simp [Job._filterJob, Job.filterJobParts, ht, h1, h2]

/-- Witness for C3: the empty filter gives `{where: "", queries: []}`, and a
name-only filter gives the `WHERE`-prefixed joined fragments. -/
theorem filter_where_assembly_witness :
    Company._filterCompany none none none = { whereClause := "", queries := [] }
      ∧ (Company._filterCompany (some "a") none none).whereClause
        = "WHERE " ++ String.intercalate " AND "
            (Company.filterCompanyParts (some "a") none none).1 :=
  ⟨(filter_where_assembly none none none none none none).1 rfl,
    (filter_where_assembly (some "a") none none none none none).2.1 (by decide)⟩

/-- C4 counterexample: with `minEmployees = 1` and `maxEmployees = 0` both
bounds are supplied and inverted (`1 > 0`), yet `findAll` raises no
`BadRequest` — the guard `maxEmployees && ...` treats the falsy bound `0` as
absent, so the filter builder runs and a clause is built. -/
theorem findAll_inverted_range_counterexample :
    (0 : Int) < 1
      ∧ Company.findAll none (some 1) (some 0)
        = Except.ok { whereClause := "WHERE num_employees >= $1"
                      queries := [JSVal.num 1] } :=
  ⟨by decide, rfl⟩

/-- C4 amended: `findAll` fails with `BadRequest` — before any clause is
built — exactly when `maxEmployees` is supplied and truthy (nonzero) and
`minEmployees` is supplied with `minEmployees > maxEmployees`; in every
other case no error is raised and the builder's result is returned
unchanged. -/
theorem findAll_validation (name : Option String)
    (minEmployees maxEmployees : Option Int) :
    (Company.findAll name minEmployees maxEmployees = Except.error ErrKind.badRequest
        ↔ ∃ m M, minEmployees = some m ∧ maxEmployees = some M ∧ M ≠ 0 ∧ M < m)
      ∧ (Company.findAll name minEmployees maxEmployees
            ≠ Except.error ErrKind.badRequest →
          Company.findAll name minEmployees maxEmployees
            = Except.ok (Company._filterCompany name minEmployees maxEmployees)) := by
  rcases hcond : truthyNum maxEmployees && plusGT minEmployees maxEmployees
  · have hok : Company.findAll name minEmployees maxEmployees
        = Except.ok (Company._filterCompany name minEmployees maxEmployees) := by
      simp [Company.findAll, hcond]
    rw [hok]
    refine ⟨⟨fun hc => absurd hc (by simp), fun hex => ?_⟩, fun _ => rfl⟩
    rcases hex with ⟨m, M, hm, hM, hM0, hlt⟩
    subst hm; subst hM
    simp [truthyNum, plusGT, hM0, hlt] at hcond
  · have herr : Company.findAll name minEmployees maxEmployees
        = Except.error ErrKind.badRequest := by
      simp [Company.findAll, hcond]
    rw [herr]
    have hboth := Bool.and_eq_true_iff.mp hcond
    rcases maxEmployees with _ | M
    · simp [truthyNum] at hboth
    · rcases minEmployees with _ | m
      · simp [plusGT] at hboth
      · refine ⟨⟨fun _ => ⟨m, M, rfl, rfl, ?_, ?_⟩, fun _ => rfl⟩, fun hne => absurd rfl hne⟩
        · have := hboth.1
          simpa [truthyNum] using this
        · have := hboth.2
          simpa [plusGT] using this

/-- Witness for C4 amended: a truthy inverted range errors, and a filter
with no bounds passes through to the builder. -/
theorem findAll_validation_witness :
    Company.findAll none (some 5) (some 2) = Except.error ErrKind.badRequest
      ∧ Company.findAll (some "a") none none
        = Except.ok (Company._filterCompany (some "a") none none) :=
  ⟨(findAll_validation none (some 5) (some 2)).1.mpr
      ⟨5, 2, rfl, rfl, by decide, by decide⟩,
    (findAll_validation (some "a") none none).2
      (by simp [Company.findAll, truthyNum, plusGT])⟩

/-- C6: on a non-empty payload the builder succeeds, emitting one fragment
per field in the payload's insertion order — the k-th fragment (1-based)
being the quoted resolved column (the `columnMap` entry when present, the
field name verbatim otherwise) followed by `=$k` — joined with `", "`, with
the k-th value being the field's value; the firstName/age scenario of the
claim is included. -/
theorem sqlForPartialUpdate_fragments (data : List (String × JSVal))
    (columnMap : List (String × String)) (hne : data ≠ []) :
    (∃ r, sqlForPartialUpdate data columnMap = Except.ok r
        ∧ r.setCols = String.intercalate ", " (updCols data columnMap)
        ∧ r.values = data.map Prod.snd)
      ∧ (updCols data columnMap).length = data.length
      ∧ (∀ k (hk : k < data.length),
          (updCols data columnMap)[k]?
              = some ("\"" ++ ((columnMap.lookup (data.get ⟨k, hk⟩).1).getD
                  (data.get ⟨k, hk⟩).1) ++ "\"=$" ++ toString (k + 1))
            ∧ (data.map Prod.snd)[k]? = some (data.get ⟨k, hk⟩).2)
      ∧ sqlForPartialUpdate
          [("firstName", JSVal.str "Aliya"), ("age", JSVal.num 32)]
          [("firstName", "first_name"), ("age", "age")]
        = Except.ok { setCols := "\"first_name\"=$1, \"age\"=$2"
                      values := [JSVal.str "Aliya", JSVal.num 32] } := by
  refine ⟨?_, by simp [updCols, List.length_mapIdx], ?_, rfl⟩
  · rcases data with _ | ⟨p, rest⟩
    · exact absurd rfl hne
    · exact ⟨_, rfl, rfl, rfl⟩
  · intro k hk
    constructor
    · have hl : k < (updCols data columnMap).length := by
        simpa [updCols, List.length_mapIdx] using hk
      have hg := List.get_mapIdx data
        (fun idx p => "\"" ++ ((columnMap.lookup p.1).getD p.1) ++ "\"=$" ++ toString (idx + 1))
        k hk
      rw [List.getElem?_eq_getElem hl]
      exact congrArg some (by simp only [updCols]; exact hg)
    · have hl2 : k < (data.map Prod.snd).length := by
        rw [List.length_map]; exact hk
      rw [List.getElem?_eq_getElem hl2]
      simp [List.getElem_map, List.get_eq_getElem]

/-- Witness for C6: the firstName/age scenario through the theorem. -/
theorem sqlForPartialUpdate_fragments_witness :
    sqlForPartialUpdate
        [("firstName", JSVal.str "Aliya"), ("age", JSVal.num 32)]
        [("firstName", "first_name"), ("age", "age")]
      = Except.ok { setCols := "\"first_name\"=$1, \"age\"=$2"
                    values := [JSVal.str "Aliya", JSVal.num 32] } :=
  (sqlForPartialUpdate_fragments
      [("firstName", JSVal.str "Aliya"), ("age", JSVal.num 32)]
      [("firstName", "first_name"), ("age", "age")]
      (by decide)).2.2.2
